import Mathlib

/-!
# Verification of the VirtualBox builder (packer plugin)

Shallow embedding of `builder.go` (package `virtualbox`): the `config`
struct, `Builder.Prepare`, `Builder.Run`, `Builder.Cancel` and
`Builder.newDriver`, together with a model of the parts of Go's standard
`net/url` package (`url.Parse` / `URL.String`) and of `os.Stat` /
`exec.LookPath` that `Prepare` calls.

Modelling conventions:
* The filesystem and the process environment are explicit (`Env`).
* Side effects performed by `Prepare` (stat checks, driver lookup and
  verification) are recorded in an explicit effect trace.
* The `net/url` model follows Go's `net/url` (current behaviour:
  `parse` canonicalizes the scheme to lower case with `strings.ToLower`
  right after `getScheme`), restricted to inputs without percent-escapes,
  user-info (`@`), control bytes, or a lone trailing `?` (ForceQuery);
  host strings are taken verbatim (no host validation).
* `strings.ToLower` is modelled for ASCII (`goToLower`); URL schemes are
  ASCII by construction.
-/

namespace VirtualBox

/-! ## ASCII lower-casing (model of Go `strings.ToLower`, ASCII fragment) -/

/-- Lower-case a single ASCII character, the ASCII fragment of Go
`strings.ToLower` / `unicode.ToLower`. -/
def asciiLower (c : Char) : Char :=
  if h : 65 ≤ c.toNat ∧ c.toNat ≤ 90 then
    ⟨⟨⟨c.toNat + 32, by omega⟩⟩, Or.inl (by
      show c.toNat + 32 < 55296
      omega)⟩
  else c

/-- Model of Go `strings.ToLower`, restricted to ASCII strings. -/
def goToLower (s : String) : String :=
  String.mk (s.data.map asciiLower)

/-! ## Model of Go `net/url` (the fragment `Prepare` exercises) -/

/-- Model of Go's `net/url.URL` restricted to the fields the builder can
reach: scheme, opaque part, host, path, raw query, fragment, and the
modern `OmitHost` flag.  User-info and escaping are outside the model. -/
structure GoURL where
  scheme : String
  opaquePart : String
  host : String
  path : String
  rawQuery : String
  fragment : String
  omitHost : Bool
deriving Repr, DecidableEq, Inhabited

/-- Result of Go's `getScheme`: a parse error (`:` in first position),
or a (possibly empty) scheme together with the rest of the input. -/
inductive SchemeRes where
  | err
  | ok (scheme : List Char) (rest : List Char)
deriving Repr, DecidableEq

/-- Model of Go `net/url.getScheme`, scanning for `scheme:`.  `acc` holds
the characters read so far (empty iff we are at position 0), `orig` the
whole input for the no-scheme returns. -/
def getSchemeAux (orig : List Char) : List Char → List Char → SchemeRes
  | _, [] => .ok [] orig
  | acc, c :: rest =>
    if c.isAlpha then getSchemeAux orig (acc ++ [c]) rest
    else if c.isDigit || c == '+' || c == '-' || c == '.' then
      if acc.isEmpty then .ok [] orig else getSchemeAux orig (acc ++ [c]) rest
    else if c == ':' then
      if acc.isEmpty then .err else .ok acc rest
    else .ok [] orig

def getScheme (l : List Char) : SchemeRes :=
  getSchemeAux l [] l

/-- Model of `net/url`'s `split(s, sep, cutc)`: split at the first
occurrence of `sep`, dropping the separator iff `cutc`. -/
def splitGo : List Char → Char → Bool → List Char × List Char
  | [], _, _ => ([], [])
  | c :: rest, sep, cutc =>
    if c == sep then ([], if cutc then rest else c :: rest)
    else
      let p := splitGo rest sep cutc
      (c :: p.1, p.2)

def startsWithSlash : List Char → Bool
  | '/' :: _ => true
  | _ => false

def startsWithDoubleSlash : List Char → Bool
  | '/' :: '/' :: _ => true
  | _ => false

/-- Model of `net/url.parse(rawurl, viaRequest := false)` (fragment
already split off).  Follows the Go source: `getScheme`, lower-case the
scheme, split off the query, rootless paths with a scheme become opaque,
`//`-prefixed rests get an authority (modelled as a bare host), a
rooted path with a scheme sets `OmitHost`. -/
def parseNoFrag (raw : List Char) : Option GoURL :=
  if raw = ['*'] then
    some { scheme := "", opaquePart := "", host := "", path := "*",
           rawQuery := "", fragment := "", omitHost := false }
  else
    match getScheme raw with
    | .err => none
    | .ok sRaw rest0 =>
      let scheme := String.mk (sRaw.map asciiLower)
      let q := splitGo rest0 '?' true
      let rest := q.1
      if !startsWithSlash rest then
        if scheme ≠ "" then
          some { scheme := scheme, opaquePart := String.mk rest, host := "",
                 path := "", rawQuery := String.mk q.2, fragment := "",
                 omitHost := false }
        else if (rest.takeWhile (· ≠ '/')).contains ':' then
          none
        else
          some { scheme := "", opaquePart := "", host := "",
                 path := String.mk rest, rawQuery := String.mk q.2,
                 fragment := "", omitHost := false }
      else if startsWithDoubleSlash rest then
        let a := splitGo (rest.drop 2) '/' false
        some { scheme := scheme, opaquePart := "", host := String.mk a.1,
               path := String.mk a.2, rawQuery := String.mk q.2,
               fragment := "", omitHost := false }
      else
        some { scheme := scheme, opaquePart := "", host := "",
               path := String.mk rest, rawQuery := String.mk q.2,
               fragment := "", omitHost := scheme ≠ "" }

/-- Model of Go `net/url.Parse`: cut off a `#fragment`, then parse. -/
def urlParse (s : String) : Option GoURL :=
  let f := splitGo s.data '#' true
  match parseNoFrag f.1 with
  | none => none
  | some u => some { u with fragment := String.mk f.2 }

/-- Model of Go `net/url.URL.String()` (no user-info, hosts and paths
verbatim since the model carries no escapes). -/
def urlString (u : GoURL) : String :=
  (if u.scheme ≠ "" then u.scheme ++ ":" else "")
    ++ (if u.opaquePart ≠ "" then u.opaquePart
        else
          (if u.scheme ≠ "" ∨ u.host ≠ "" then
            (if u.omitHost ∧ u.host = "" then ""
             else (if u.host ≠ "" ∨ u.path ≠ "" then "//" else "") ++ u.host)
           else "")
          ++ u.path)
    ++ (if u.rawQuery ≠ "" then "?" ++ u.rawQuery else "")
    ++ (if u.fragment ≠ "" then "#" ++ u.fragment else "")

/-! ## The builder's data model (`builder.go`) -/

/-- The `config` struct of the builder (mapstructure-decoded build spec).
A `Config` value stands both for the decoded raw spec and for the
normalized configuration `Prepare` leaves behind. -/
structure Config where
  guestOSType : String
  isoMD5 : String
  isoUrl : String
  outputDir : String
  vmName : String
deriving Repr, DecidableEq, Inhabited

/-- The `VBox42Driver` as far as `builder.go` constructs it: it carries the
resolved `VBoxManage` path. -/
structure Driver where
  vboxmanagePath : String
deriving Repr, DecidableEq

/-- The environment `Prepare` runs in: which paths exist (`os.Stat`
succeeds), what `exec.LookPath "VBoxManage"` resolves to, and whether
`VBox42Driver.Verify` succeeds. -/
structure Env where
  files : List String
  vboxmanagePath : Option String
  driverVerifyOk : Bool
deriving Repr, DecidableEq

/-- Externally visible side effects `Prepare` performs. -/
inductive Effect where
  | statCheck (path : String)
  | lookPath (name : String)
  | driverVerify
deriving Repr, DecidableEq

/-- The individual errors `Prepare` can accumulate (one constructor per
`errors.New`/`fmt.Errorf` site in the source). -/
inductive PrepError where
  | isoMD5Required
  | isoUrlRequired
  | isoUrlInvalid
  | isoUrlBadFile (path : String)
  | unsupportedScheme (scheme : String)
  | driverFailed
deriving Repr, DecidableEq

/-- Model of `os.Stat` returning no error: the path exists. -/
def osStat (env : Env) (path : String) : Bool :=
  env.files.contains path

/-- Model of `Builder.newDriver`: `exec.LookPath("VBoxManage")`, then
`VBox42Driver.Verify`.  Returns the driver (if successful) and the
effect trace. -/
def newDriver (env : Env) : Option Driver × List Effect :=
  match env.vboxmanagePath with
  | none => (none, [.lookPath "VBoxManage"])
  | some p =>
    if env.driverVerifyOk then
      (some ⟨p⟩, [.lookPath "VBoxManage", .driverVerify])
    else
      (none, [.lookPath "VBoxManage", .driverVerify])

/-- The three defaulting statements at the top of `Prepare` (the Go
code assigns the three fields one after the other; the assignments are
independent, so a simultaneous update is the same function). -/
def applyDefaults (c : Config) : Config :=
  { c with
    guestOSType := if c.guestOSType = "" then "Other" else c.guestOSType
    outputDir := if c.outputDir = "" then "virtualbox" else c.outputDir
    vmName := if c.vmName = "" then "packer" else c.vmName }

/-- The `iso_md5` block of `Prepare`: required, lower-cased when present. -/
def validateMD5 (c : Config) : Config × List PrepError :=
  if c.isoMD5 = "" then (c, [.isoMD5Required])
  else ({ c with isoMD5 := goToLower c.isoMD5 }, [])

def supportedSchemes : List String := ["file", "http", "https"]

/-- The scheme-dependent checks inside the `iso_url` block: for scheme
`"file"` an immediate `os.Stat` of the raw `iso_url` string, otherwise a
case-insensitive membership test in the supported-scheme list. -/
def isoUrlCheck (env : Env) (rawIsoUrl : String) (u : GoURL) :
    List PrepError × List Effect :=
  if u.scheme = "file" then
    ((if osStat env rawIsoUrl then [] else [.isoUrlBadFile rawIsoUrl]),
     [.statCheck rawIsoUrl])
  else
    ((if supportedSchemes.contains (goToLower u.scheme) then []
      else [.unsupportedScheme (goToLower u.scheme)]), [])

/-- The statement `if url.Scheme == "" { url.Scheme = "file" }` of
`Prepare`. -/
def defaultFileScheme (u : GoURL) : GoURL :=
  if u.scheme = "" then { u with scheme := "file" } else u

/-- The `iso_url` block of `Prepare`: required, parsed with `url.Parse`,
empty scheme defaulted to `"file"`, the checks of `isoUrlCheck`, and —
only when no error at all has been accumulated so far — the raw value is
replaced by the re-serialized URL (`url.String()`). -/
def validateIsoUrl (env : Env) (c : Config) (errs : List PrepError) :
    Config × List PrepError × List Effect :=
  if c.isoUrl = "" then (c, errs ++ [.isoUrlRequired], [])
  else
    match urlParse c.isoUrl with
    | none => (c, errs ++ [.isoUrlInvalid], [])
    | some u0 =>
      let u := defaultFileScheme u0
      let r := isoUrlCheck env c.isoUrl u
      let errs2 := errs ++ r.1
      ((if errs2.isEmpty then { c with isoUrl := urlString u } else c),
       errs2, r.2)

/-- Result of `Builder.Prepare`: the (mutated-in-place) config, the
stored driver, the accumulated errors (`Prepare` returns a single
`packer.MultiError` iff this list is non-empty), and the effect trace. -/
structure PrepareResult where
  config : Config
  driver : Option Driver
  errs : List PrepError
  effects : List Effect
deriving Repr, DecidableEq

/-- Model of `Builder.Prepare` (after a successful mapstructure decode of the raw
spec into `raw`): defaults, `iso_md5` check, `iso_url` check, then —
unconditionally — driver construction/verification, whose failure is
appended to the same error list. -/
def prepare (env : Env) (raw : Config) : PrepareResult :=
  let m := validateMD5 (applyDefaults raw)
  let v := validateIsoUrl env m.1 m.2
  let d := newDriver env
  { config := v.1
    driver := d.1
    errs := if d.1.isNone then v.2.1 ++ [.driverFailed] else v.2.1
    effects := v.2.2 ++ d.2 }

/-- Whether `Prepare` returns an error (a `packer.MultiError`) iff the error
list is non-empty. -/
def prepareFails (r : PrepareResult) : Bool :=
  !r.errs.isEmpty

/-- Modelled from the spec: the produced artifact is, at minimum, an
(output directory, VM name) pair.  No artifact implementation is present
in the sources, only the `packer.Artifact` return type of `Run`. -/
structure Artifact where
  outputDir : String
  vmName : String
deriving Repr, DecidableEq

/-- Observable state of the external multistep runner
(`multistep.BasicRunner`, an external dependency): whether cancellation
has been signalled.  Signalling cancellation again has no further
effect, which is the external library's documented contract. -/
structure Runner where
  cancelled : Bool
deriving Repr, DecidableEq

/-- The `Builder` struct: the stored config, the driver created by
`Prepare`, and the runner installed by `Run` (nil before the first
run). -/
structure Builder where
  config : Config
  driver : Option Driver
  runner : Option Runner
deriving Repr, DecidableEq

/-- Model of `Builder.Run`: a fresh `BasicRunner` is installed and the
step pipeline is run against the state bag; the function then returns
literally `nil` (`return nil` in the source), whatever the pipeline
did.  The step bodies live outside `builder.go` and cannot affect the
returned value. -/
def Builder.run (b : Builder) : Builder × Option Artifact :=
  ({ b with runner := some { cancelled := false } }, none)

/-- Model of `Builder.Cancel`: forward cancellation to the runner when
one exists, otherwise do nothing. -/
def Builder.cancel (b : Builder) : Builder :=
  match b.runner with
  | none => b
  | some r => { b with runner := some { r with cancelled := true } }

/-! ## Concrete fixtures used by witnesses and counterexamples -/

/-- An environment with one ISO file on disk and a working VBoxManage. -/
def envStd : Env :=
  { files := ["/iso/a.iso"]
    vboxmanagePath := some "/usr/bin/VBoxManage"
    driverVerifyOk := true }

/-- A raw spec pointing at the existing ISO by bare local path. -/
def rawStd : Config :=
  { guestOSType := ""
    isoMD5 := "ABC"
    isoUrl := "/iso/a.iso"
    outputDir := ""
    vmName := "" }

/-- A builder that has not run yet. -/
def builderStd : Builder :=
  { config := rawStd
    driver := some { vboxmanagePath := "/usr/bin/VBoxManage" }
    runner := none }

/-- A raw spec already in normalized form, except that iso_url is
missing. -/
def rawNormalized : Config :=
  { guestOSType := "Other"
    isoMD5 := "abc"
    isoUrl := ""
    outputDir := "virtualbox"
    vmName := "packer" }

/-- The canonical string `Prepare` stores for an accepted iso_url: the
re-serialization of the parsed URL after scheme defaulting (identity
fallback for unparseable input, which never reaches the replacement). -/
def canonicalUrl (s : String) : String :=
  match urlParse s with
  | none => s
  | some u => urlString (defaultFileScheme u)

end VirtualBox

namespace VirtualBox

/-! ## Helper lemmas -/

theorem asciiLower_idem (c : Char) : asciiLower (asciiLower c) = asciiLower c := by
  unfold asciiLower
  by_cases h : 65 ≤ c.toNat ∧ c.toNat ≤ 90
  · rw [dif_pos h, dif_neg]
    intro hcon
    have h2 : c.toNat + 32 ≤ 90 := hcon.2
    omega
  · rw [dif_neg h, dif_neg h]

theorem goToLower_map (l : List Char) :
    goToLower (String.mk (l.map asciiLower)) = String.mk (l.map asciiLower) := by
  unfold goToLower
  rw [show (String.mk (l.map asciiLower)).data = l.map asciiLower from rfl]
  rw [List.map_map]
  exact congrArg String.mk (List.map_congr_left fun a _ => asciiLower_idem a)

theorem goToLower_empty : goToLower "" = "" := rfl

theorem applyDefaults_guestOSType (c : Config) :
    (applyDefaults c).guestOSType = if c.guestOSType = "" then "Other" else c.guestOSType := rfl

theorem applyDefaults_outputDir (c : Config) :
    (applyDefaults c).outputDir = if c.outputDir = "" then "virtualbox" else c.outputDir := rfl

theorem applyDefaults_vmName (c : Config) :
    (applyDefaults c).vmName = if c.vmName = "" then "packer" else c.vmName := rfl

theorem applyDefaults_isoMD5 (c : Config) : (applyDefaults c).isoMD5 = c.isoMD5 := rfl

theorem applyDefaults_isoUrl (c : Config) : (applyDefaults c).isoUrl = c.isoUrl := rfl

theorem validateMD5_empty (c : Config) (h : c.isoMD5 = "") :
    validateMD5 c = (c, [.isoMD5Required]) := by
  unfold validateMD5; rw [if_pos h]

theorem validateMD5_nonempty (c : Config) (h : c.isoMD5 ≠ "") :
    validateMD5 c = ({ c with isoMD5 := goToLower c.isoMD5 }, []) := by
  unfold validateMD5; rw [if_neg h]

theorem validateMD5_fst_isoUrl (c : Config) : (validateMD5 c).1.isoUrl = c.isoUrl := by
  unfold validateMD5; split <;> rfl

theorem validateMD5_fst_guestOSType (c : Config) :
    (validateMD5 c).1.guestOSType = c.guestOSType := by
  unfold validateMD5; split <;> rfl

theorem validateMD5_fst_outputDir (c : Config) :
    (validateMD5 c).1.outputDir = c.outputDir := by
  unfold validateMD5; split <;> rfl

theorem validateMD5_fst_vmName (c : Config) : (validateMD5 c).1.vmName = c.vmName := by
  unfold validateMD5; split <;> rfl

theorem validateMD5_errs_sub (c : Config) {e : PrepError}
    (h : e ∈ (validateMD5 c).2) : e = .isoMD5Required := by
  unfold validateMD5 at h
  split at h
  · simpa using h
  · simp at h

theorem validateIsoUrl_empty (env : Env) (c : Config) (errs : List PrepError)
    (h : c.isoUrl = "") :
    validateIsoUrl env c errs = (c, errs ++ [.isoUrlRequired], []) := by
  unfold validateIsoUrl; rw [if_pos h]

theorem validateIsoUrl_parseNone (env : Env) (c : Config) (errs : List PrepError)
    (hne : c.isoUrl ≠ "") (hp : urlParse c.isoUrl = none) :
    validateIsoUrl env c errs = (c, errs ++ [.isoUrlInvalid], []) := by
  unfold validateIsoUrl; rw [if_neg hne, hp]

theorem validateIsoUrl_parseSome (env : Env) (c : Config) (errs : List PrepError)
    (u0 : GoURL) (hne : c.isoUrl ≠ "") (hp : urlParse c.isoUrl = some u0) :
    validateIsoUrl env c errs =
      ((if (errs ++ (isoUrlCheck env c.isoUrl (defaultFileScheme u0)).1).isEmpty
          then { c with isoUrl := urlString (defaultFileScheme u0) }
          else c),
       errs ++ (isoUrlCheck env c.isoUrl (defaultFileScheme u0)).1,
       (isoUrlCheck env c.isoUrl (defaultFileScheme u0)).2) := by
  unfold validateIsoUrl; rw [if_neg hne, hp]

theorem validateIsoUrl_errs_tail (env : Env) (c : Config) (errs : List PrepError) :
    ∃ t, (validateIsoUrl env c errs).2.1 = errs ++ t := by
  by_cases h : c.isoUrl = ""
  · exact ⟨[.isoUrlRequired], by rw [validateIsoUrl_empty env c errs h]⟩
  · cases hp : urlParse c.isoUrl with
    | none => exact ⟨[.isoUrlInvalid], by rw [validateIsoUrl_parseNone env c errs h hp]⟩
    | some u0 =>
      exact ⟨(isoUrlCheck env c.isoUrl (defaultFileScheme u0)).1,
        by rw [validateIsoUrl_parseSome env c errs u0 h hp]⟩

theorem validateIsoUrl_errs_mem (env : Env) (c : Config) (errs : List PrepError)
    {e : PrepError} (h : e ∈ errs) : e ∈ (validateIsoUrl env c errs).2.1 := by
  obtain ⟨t, ht⟩ := validateIsoUrl_errs_tail env c errs
  rw [ht]
  exact List.mem_append_left _ h

theorem validateIsoUrl_fst_guestOSType (env : Env) (c : Config) (errs : List PrepError) :
    (validateIsoUrl env c errs).1.guestOSType = c.guestOSType := by
  unfold validateIsoUrl
  split
  · rfl
  · split
    · rfl
    · dsimp only
      split <;> rfl

theorem validateIsoUrl_fst_outputDir (env : Env) (c : Config) (errs : List PrepError) :
    (validateIsoUrl env c errs).1.outputDir = c.outputDir := by
  unfold validateIsoUrl
  split
  · rfl
  · split
    · rfl
    · dsimp only
      split <;> rfl

theorem validateIsoUrl_fst_vmName (env : Env) (c : Config) (errs : List PrepError) :
    (validateIsoUrl env c errs).1.vmName = c.vmName := by
  unfold validateIsoUrl
  split
  · rfl
  · split
    · rfl
    · dsimp only
      split <;> rfl

theorem validateIsoUrl_fst_isoMD5 (env : Env) (c : Config) (errs : List PrepError) :
    (validateIsoUrl env c errs).1.isoMD5 = c.isoMD5 := by
  unfold validateIsoUrl
  split
  · rfl
  · split
    · rfl
    · dsimp only
      split <;> rfl

theorem newDriver_lookPath (env : Env) :
    Effect.lookPath "VBoxManage" ∈ (newDriver env).2 := by
  obtain ⟨files, vb, ok⟩ := env
  cases vb <;> cases ok <;> simp [newDriver]

theorem prepare_config_eq (env : Env) (raw : Config) :
    (prepare env raw).config =
      (validateIsoUrl env (validateMD5 (applyDefaults raw)).1
        (validateMD5 (applyDefaults raw)).2).1 := rfl

theorem prepare_effects_eq (env : Env) (raw : Config) :
    (prepare env raw).effects =
      (validateIsoUrl env (validateMD5 (applyDefaults raw)).1
        (validateMD5 (applyDefaults raw)).2).2.2 ++ (newDriver env).2 := rfl

theorem prepare_errs_eq (env : Env) (raw : Config) :
    (prepare env raw).errs =
      if (newDriver env).1.isNone
        then (validateIsoUrl env (validateMD5 (applyDefaults raw)).1
                (validateMD5 (applyDefaults raw)).2).2.1 ++ [.driverFailed]
        else (validateIsoUrl env (validateMD5 (applyDefaults raw)).1
                (validateMD5 (applyDefaults raw)).2).2.1 := rfl

theorem prepare_errs_mem (env : Env) (raw : Config) {e : PrepError}
    (h : e ∈ (validateIsoUrl env (validateMD5 (applyDefaults raw)).1
                (validateMD5 (applyDefaults raw)).2).2.1) :
    e ∈ (prepare env raw).errs := by
  rw [prepare_errs_eq]
  split
  · exact List.mem_append_left _ h
  · exact h

theorem prepareFails_of_mem {r : PrepareResult} {e : PrepError}
    (h : e ∈ r.errs) : prepareFails r = true := by
  unfold prepareFails
  have hne := List.ne_nil_of_mem h
  simp [List.isEmpty_iff, hne]

end VirtualBox

namespace VirtualBox

theorem parseNoFrag_scheme (l : List Char) (u : GoURL)
    (h : parseNoFrag l = some u) : goToLower u.scheme = u.scheme := by
  unfold parseNoFrag at h
  split at h
  · injection h with h
    subst h
    rfl
  · split at h
    · exact absurd h (by simp)
    · dsimp only at h
      split at h
      · split at h
        · injection h with h
          subst h
          exact goToLower_map _
        · split at h
          · exact absurd h (by simp)
          · injection h with h
            subst h
            rfl
      · split at h
        · injection h with h
          subst h
          exact goToLower_map _
        · injection h with h
          subst h
          exact goToLower_map _

theorem urlParse_scheme_lower (s : String) (u : GoURL)
    (h : urlParse s = some u) : goToLower u.scheme = u.scheme := by
  unfold urlParse at h
  dsimp only at h
  cases hp : parseNoFrag (splitGo s.data '#' true).1 with
  | none => rw [hp] at h; exact absurd h (by simp)
  | some v =>
    rw [hp] at h
    injection h with h
    subst h
    exact parseNoFrag_scheme _ v hp

theorem defaultFileScheme_file {u : GoURL} (h : u.scheme = "file" ∨ u.scheme = "") :
    (defaultFileScheme u).scheme = "file" := by
  unfold defaultFileScheme
  rcases h with h | h
  · have hne : ¬(u.scheme = "") := by rw [h]; decide
    rw [if_neg hne, h]
  · rw [if_pos h]

theorem isoUrlCheck_file (env : Env) (p : String) (u : GoURL) (h : u.scheme = "file") :
    isoUrlCheck env p u =
      ((if osStat env p then [] else [.isoUrlBadFile p]), [.statCheck p]) := by
  unfold isoUrlCheck; rw [if_pos h]

theorem validateMD5_fst_isoUrl_prep (raw : Config) :
    (validateMD5 (applyDefaults raw)).1.isoUrl = raw.isoUrl := by
  rw [validateMD5_fst_isoUrl, applyDefaults_isoUrl]

theorem statCheck_mem (env : Env) (raw : Config) (u : GoURL)
    (hne : raw.isoUrl ≠ "") (hp : urlParse raw.isoUrl = some u)
    (hs : u.scheme = "file" ∨ u.scheme = "") :
    Effect.statCheck raw.isoUrl ∈ (prepare env raw).effects := by
  have hmu := validateMD5_fst_isoUrl_prep raw
  have hne' : (validateMD5 (applyDefaults raw)).1.isoUrl ≠ "" := by
    rw [hmu]; exact hne
  have hp' : urlParse (validateMD5 (applyDefaults raw)).1.isoUrl = some u := by
    rw [hmu]; exact hp
  rw [prepare_effects_eq, validateIsoUrl_parseSome env _ _ u hne' hp']
  dsimp only
  rw [hmu, isoUrlCheck_file env raw.isoUrl (defaultFileScheme u) (defaultFileScheme_file hs)]
  exact List.mem_append_left _ (List.mem_singleton.2 rfl)

theorem badFile_mem_of_stat_false (env : Env) (raw : Config) (u : GoURL)
    (hne : raw.isoUrl ≠ "") (hp : urlParse raw.isoUrl = some u)
    (hs : u.scheme = "file" ∨ u.scheme = "")
    (hstat : osStat env raw.isoUrl = false) :
    PrepError.isoUrlBadFile raw.isoUrl ∈ (prepare env raw).errs := by
  have hmu := validateMD5_fst_isoUrl_prep raw
  have hne' : (validateMD5 (applyDefaults raw)).1.isoUrl ≠ "" := by
    rw [hmu]; exact hne
  have hp' : urlParse (validateMD5 (applyDefaults raw)).1.isoUrl = some u := by
    rw [hmu]; exact hp
  apply prepare_errs_mem
  rw [validateIsoUrl_parseSome env _ _ u hne' hp']
  dsimp only
  rw [hmu, isoUrlCheck_file env raw.isoUrl (defaultFileScheme u) (defaultFileScheme_file hs)]
  dsimp only
  simp [hstat]

theorem badFile_not_mem_of_stat_true (env : Env) (raw : Config) (u : GoURL)
    (hne : raw.isoUrl ≠ "") (hp : urlParse raw.isoUrl = some u)
    (hs : u.scheme = "file" ∨ u.scheme = "")
    (hstat : osStat env raw.isoUrl = true) :
    PrepError.isoUrlBadFile raw.isoUrl ∉ (prepare env raw).errs := by
  have hmu := validateMD5_fst_isoUrl_prep raw
  have hne' : (validateMD5 (applyDefaults raw)).1.isoUrl ≠ "" := by
    rw [hmu]; exact hne
  have hp' : urlParse (validateMD5 (applyDefaults raw)).1.isoUrl = some u := by
    rw [hmu]; exact hp
  intro hmem
  rw [prepare_errs_eq, validateIsoUrl_parseSome env _ _ u hne' hp'] at hmem
  dsimp only at hmem
  rw [hmu, isoUrlCheck_file env raw.isoUrl (defaultFileScheme u) (defaultFileScheme_file hs)] at hmem
  dsimp only at hmem
  have hite : (if osStat env raw.isoUrl = true then ([] : List PrepError)
      else [PrepError.isoUrlBadFile raw.isoUrl]) = [] := by
    simp [hstat]
  rw [hite, List.append_nil] at hmem
  have hcore : PrepError.isoUrlBadFile raw.isoUrl ∈
      (validateMD5 (applyDefaults raw)).2 := by
    split at hmem
    · rcases List.mem_append.1 hmem with hin | hin
      · exact hin
      · simp at hin
    · exact hmem
  have := validateMD5_errs_sub _ hcore
  simp at this

end VirtualBox

namespace VirtualBox

/-! ## Claim theorems -/

/-- C7: for every raw spec in which guest_os_type, output_directory, or
vm_name is absent or empty, Prepare sets the missing field to its
default ("Other", "virtualbox", "packer" respectively); a non-empty
supplied value is kept unchanged, so after validation none of these
three fields is empty. -/
theorem C7_defaults (env : Env) (raw : Config) :
    ((prepare env raw).config.guestOSType
        = if raw.guestOSType = "" then "Other" else raw.guestOSType)
  ∧ ((prepare env raw).config.outputDir
        = if raw.outputDir = "" then "virtualbox" else raw.outputDir)
  ∧ ((prepare env raw).config.vmName
        = if raw.vmName = "" then "packer" else raw.vmName)
  ∧ (prepare env raw).config.guestOSType ≠ ""
  ∧ (prepare env raw).config.outputDir ≠ ""
  ∧ (prepare env raw).config.vmName ≠ "" := by
  have hg : (prepare env raw).config.guestOSType
      = if raw.guestOSType = "" then "Other" else raw.guestOSType := by
    rw [prepare_config_eq, validateIsoUrl_fst_guestOSType,
      validateMD5_fst_guestOSType, applyDefaults_guestOSType]
  have ho : (prepare env raw).config.outputDir
      = if raw.outputDir = "" then "virtualbox" else raw.outputDir := by
    rw [prepare_config_eq, validateIsoUrl_fst_outputDir,
      validateMD5_fst_outputDir, applyDefaults_outputDir]
  have hv : (prepare env raw).config.vmName
      = if raw.vmName = "" then "packer" else raw.vmName := by
    rw [prepare_config_eq, validateIsoUrl_fst_vmName,
      validateMD5_fst_vmName, applyDefaults_vmName]
  refine ⟨hg, ho, hv, ?_, ?_, ?_⟩
  · rw [hg]; split
    · decide
    · assumption
  · rw [ho]; split
    · decide
    · assumption
  · rw [hv]; split
    · decide
    · assumption

/-- C6: iso_checksum (iso_md5 in the source) is required: when it is
empty Prepare records the corresponding error and returns a validation
error; when it is non-empty, the stored checksum is the lower-casing of
the supplied value. -/
theorem C6_isoMD5 (env : Env) (raw : Config) :
    (raw.isoMD5 = "" →
        PrepError.isoMD5Required ∈ (prepare env raw).errs
          ∧ prepareFails (prepare env raw) = true)
  ∧ (raw.isoMD5 ≠ "" →
        (prepare env raw).config.isoMD5 = goToLower raw.isoMD5) := by
  constructor
  · intro h
    have hd : (applyDefaults raw).isoMD5 = "" := by
      rw [applyDefaults_isoMD5]; exact h
    have hm := validateMD5_empty _ hd
    have hmem : PrepError.isoMD5Required ∈ (prepare env raw).errs := by
      apply prepare_errs_mem
      apply validateIsoUrl_errs_mem
      rw [hm]
      exact List.mem_singleton.2 rfl
    exact ⟨hmem, prepareFails_of_mem hmem⟩
  · intro h
    have hd : (applyDefaults raw).isoMD5 ≠ "" := by
      rw [applyDefaults_isoMD5]; exact h
    rw [prepare_config_eq, validateIsoUrl_fst_isoMD5, validateMD5_nonempty _ hd]
    show goToLower (applyDefaults raw).isoMD5 = goToLower raw.isoMD5
    rw [applyDefaults_isoMD5]

/-- Witness for C6: on a raw spec with empty iso_md5 the error is
recorded, and on rawStd the stored checksum is the lower-cased "abc". -/
theorem C6_isoMD5_witness :
    (PrepError.isoMD5Required ∈ (prepare envStd { rawStd with isoMD5 := "" }).errs
       ∧ prepareFails (prepare envStd { rawStd with isoMD5 := "" }) = true)
  ∧ (prepare envStd rawStd).config.isoMD5 = "abc" := by
  constructor
  · exact (C6_isoMD5 envStd { rawStd with isoMD5 := "" }).1 rfl
  · exact ((C6_isoMD5 envStd rawStd).2 (by decide)).trans (by decide)

/-- C2: for any raw spec in which both iso_url and iso_md5 are empty,
Prepare returns a single aggregate error whose list mentions both
defects; validation does not stop at the first defect. -/
theorem C2_missing_both (env : Env) (raw : Config)
    (hmd5 : raw.isoMD5 = "") (hurl : raw.isoUrl = "") :
    PrepError.isoMD5Required ∈ (prepare env raw).errs
  ∧ PrepError.isoUrlRequired ∈ (prepare env raw).errs
  ∧ prepareFails (prepare env raw) = true := by
  have hd5 : (applyDefaults raw).isoMD5 = "" := by
    rw [applyDefaults_isoMD5]; exact hmd5
  have hm := validateMD5_empty _ hd5
  have hdu : (validateMD5 (applyDefaults raw)).1.isoUrl = "" := by
    rw [validateMD5_fst_isoUrl_prep]; exact hurl
  have hv := validateIsoUrl_empty env (validateMD5 (applyDefaults raw)).1
    (validateMD5 (applyDefaults raw)).2 hdu
  have h1 : PrepError.isoMD5Required ∈ (prepare env raw).errs := by
    apply prepare_errs_mem
    rw [hv]
    dsimp only
    apply List.mem_append_left
    rw [hm]
    exact List.mem_singleton.2 rfl
  have h2 : PrepError.isoUrlRequired ∈ (prepare env raw).errs := by
    apply prepare_errs_mem
    rw [hv]
    dsimp only
    exact List.mem_append_right _ (List.mem_singleton.2 rfl)
  exact ⟨h1, h2, prepareFails_of_mem h1⟩

/-- Witness for C2 at a concrete raw spec with both fields empty. -/
theorem C2_missing_both_witness :
    PrepError.isoMD5Required
      ∈ (prepare envStd { rawStd with isoMD5 := "", isoUrl := "" }).errs
  ∧ PrepError.isoUrlRequired
      ∈ (prepare envStd { rawStd with isoMD5 := "", isoUrl := "" }).errs
  ∧ prepareFails (prepare envStd { rawStd with isoMD5 := "", isoUrl := "" }) = true :=
  C2_missing_both envStd { rawStd with isoMD5 := "", isoUrl := "" } rfl rfl

/-- C8: Cancel is idempotent and total: it is a total function on the
builder state, repeated calls have the same effect as one call, and on a
builder that has not run yet (runner nil) it does nothing. -/
theorem C8_cancel_idempotent (b : Builder) :
    Builder.cancel (Builder.cancel b) = Builder.cancel b
  ∧ (b.runner = none → Builder.cancel b = b) := by
  constructor
  · obtain ⟨cfg, drv, rn⟩ := b
    cases rn <;> rfl
  · intro h
    unfold Builder.cancel
    rw [h]

/-- Witness for C8 on a builder that has not run yet. -/
theorem C8_cancel_idempotent_witness :
    Builder.cancel (Builder.cancel builderStd) = Builder.cancel builderStd
  ∧ Builder.cancel builderStd = builderStd :=
  ⟨(C8_cancel_idempotent builderStd).1, (C8_cancel_idempotent builderStd).2 rfl⟩

/-- C1 counterexample: Run on a concrete builder returns no artifact at
all (the source returns literally nil), contradicting the claim that
the value returned by Run is a non-null artifact carrying the
configured output directory and VM name. -/
theorem C1_counterexample :
    ¬ ∃ a : Artifact, (Builder.run builderStd).2 = some a
      ∧ a.outputDir = builderStd.config.outputDir
      ∧ a.vmName = builderStd.config.vmName := by
  rintro ⟨a, ha, -, -⟩
  exact Option.noConfusion ha

/-- C1 amended: Run always returns null; the builder produces no
artifact value, whatever the pipeline did. -/
theorem C1_run_returns_none (b : Builder) : (Builder.run b).2 = none := rfl

/-- C5 counterexample: for a raw spec whose iso_url is a local path that
does not exist, Prepare fails, yet the driver lookup and verification
side effects have occurred during that same Prepare call. -/
theorem C5_counterexample :
    prepareFails (prepare envStd { rawStd with isoUrl := "/nope.iso" }) = true
  ∧ Effect.lookPath "VBoxManage"
      ∈ (prepare envStd { rawStd with isoUrl := "/nope.iso" }).effects
  ∧ Effect.driverVerify
      ∈ (prepare envStd { rawStd with isoUrl := "/nope.iso" }).effects := by
  decide

/-- C5 amended: Prepare always performs the driver lookup (and, when the
binary is found, its verification), no matter which validation failures
were already recorded; a driver failure is folded into the same
aggregate error list. -/
theorem C5_driver_always (env : Env) (raw : Config) :
    Effect.lookPath "VBoxManage" ∈ (prepare env raw).effects := by
  rw [prepare_effects_eq]
  exact List.mem_append_right _ (newDriver_lookPath env)

end VirtualBox

namespace VirtualBox

/-- Auxiliary: when the md5 is present, the URL parses, the (defaulted)
scheme is "file" and the stat of the raw string succeeds, the stored
iso_url is the re-serialized URL — whatever the driver did. -/
theorem prepare_config_isoUrl_of_ok (env : Env) (raw : Config) (u : GoURL)
    (hmd5 : raw.isoMD5 ≠ "") (hne : raw.isoUrl ≠ "")
    (hp : urlParse raw.isoUrl = some u)
    (hdfs : (defaultFileScheme u).scheme = "file")
    (hstat : osStat env raw.isoUrl = true) :
    (prepare env raw).config.isoUrl = urlString (defaultFileScheme u) := by
  have hd : (applyDefaults raw).isoMD5 ≠ "" := by
    rw [applyDefaults_isoMD5]; exact hmd5
  have hmu := validateMD5_fst_isoUrl_prep raw
  have hne' : (validateMD5 (applyDefaults raw)).1.isoUrl ≠ "" := by
    rw [hmu]; exact hne
  have hp' : urlParse (validateMD5 (applyDefaults raw)).1.isoUrl = some u := by
    rw [hmu]; exact hp
  have hm2 : (validateMD5 (applyDefaults raw)).2 = [] := by
    rw [validateMD5_nonempty _ hd]
  rw [prepare_config_eq, validateIsoUrl_parseSome env _ _ u hne' hp']
  dsimp only
  rw [hmu, isoUrlCheck_file env raw.isoUrl (defaultFileScheme u) hdfs]
  dsimp only
  have hite : (if osStat env raw.isoUrl = true then ([] : List PrepError)
      else [PrepError.isoUrlBadFile raw.isoUrl]) = [] := by
    simp [hstat]
  rw [hite, hm2]
  rfl

/-- C9 counterexample: a raw spec already in normalized form but with no
iso_url makes Prepare fail while the stored config equals the raw input
exactly, refuting "the config observed after a failed Prepare differs
from the raw input" for every failing spec. -/
theorem C9_counterexample :
    prepareFails (prepare envStd rawNormalized) = true
  ∧ (prepare envStd rawNormalized).config = rawNormalized := by
  decide

/-- C9 amended: Prepare is not atomic on failure — even when it returns
a validation error the stored config has been normalized in place (the
three defaults applied, a non-empty iso_md5 lower-cased); the config
therefore differs from the raw input exactly when some field needed
normalizing, and coincides with it when the raw spec was already in
normalized form. -/
theorem C9_not_atomic (env : Env) (raw : Config)
    (_h : prepareFails (prepare env raw) = true) :
    ((prepare env raw).config.guestOSType
        = if raw.guestOSType = "" then "Other" else raw.guestOSType)
  ∧ ((prepare env raw).config.outputDir
        = if raw.outputDir = "" then "virtualbox" else raw.outputDir)
  ∧ ((prepare env raw).config.vmName
        = if raw.vmName = "" then "packer" else raw.vmName)
  ∧ (raw.isoMD5 ≠ "" → (prepare env raw).config.isoMD5 = goToLower raw.isoMD5) := by
  refine ⟨?_, ?_, ?_, ?_⟩
  · rw [prepare_config_eq, validateIsoUrl_fst_guestOSType,
      validateMD5_fst_guestOSType, applyDefaults_guestOSType]
  · rw [prepare_config_eq, validateIsoUrl_fst_outputDir,
      validateMD5_fst_outputDir, applyDefaults_outputDir]
  · rw [prepare_config_eq, validateIsoUrl_fst_vmName,
      validateMD5_fst_vmName, applyDefaults_vmName]
  · intro hm
    have hd : (applyDefaults raw).isoMD5 ≠ "" := by
      rw [applyDefaults_isoMD5]; exact hm
    rw [prepare_config_eq, validateIsoUrl_fst_isoMD5, validateMD5_nonempty _ hd]
    show goToLower (applyDefaults raw).isoMD5 = goToLower raw.isoMD5
    rw [applyDefaults_isoMD5]

/-- Witness for C9 amended at a failing raw spec that needed
normalizing. -/
theorem C9_not_atomic_witness :
    prepareFails (prepare envStd { rawStd with isoUrl := "" }) = true
  ∧ (prepare envStd { rawStd with isoUrl := "" }).config.guestOSType = "Other"
  ∧ (prepare envStd { rawStd with isoUrl := "" }).config.isoMD5 = "abc" := by
  have h : prepareFails (prepare envStd { rawStd with isoUrl := "" }) = true := by
    decide
  have hc := C9_not_atomic envStd { rawStd with isoUrl := "" } h
  exact ⟨h, hc.1.trans (by decide), (hc.2.2.2 (by decide)).trans (by decide)⟩

/-- C4 counterexample: for iso_url "file:///iso/a.iso" the referenced
local path is "/iso/a.iso", which exists in the environment, yet
Prepare records an iso_url error, because the existence check stats the
raw URL string itself. -/
theorem C4_counterexample :
    (urlParse "file:///iso/a.iso").map GoURL.path = some "/iso/a.iso"
  ∧ "/iso/a.iso" ∈ envStd.files
  ∧ PrepError.isoUrlBadFile "file:///iso/a.iso"
      ∈ (prepare envStd { rawStd with isoUrl := "file:///iso/a.iso" }).errs
  ∧ prepareFails (prepare envStd { rawStd with isoUrl := "file:///iso/a.iso" }) = true := by
  decide

/-- C4 amended: for every iso_url that parses with scheme "file"
(explicit, or defaulted from an empty scheme), Prepare performs the
existence check during validation itself, applying os.Stat to the raw
iso_url string: it records an iso_url error exactly when that raw
string is not an existing path.  For a bare local path the raw string
is the referenced path; for an explicit file:// URL it is the whole URL
string. -/
theorem C4_file_stat (env : Env) (raw : Config) (u : GoURL)
    (hne : raw.isoUrl ≠ "") (hp : urlParse raw.isoUrl = some u)
    (hs : u.scheme = "file" ∨ u.scheme = "") :
    Effect.statCheck raw.isoUrl ∈ (prepare env raw).effects
  ∧ (osStat env raw.isoUrl = false →
        PrepError.isoUrlBadFile raw.isoUrl ∈ (prepare env raw).errs
          ∧ prepareFails (prepare env raw) = true)
  ∧ (osStat env raw.isoUrl = true →
        PrepError.isoUrlBadFile raw.isoUrl ∉ (prepare env raw).errs) := by
  refine ⟨statCheck_mem env raw u hne hp hs, ?_, ?_⟩
  · intro hstat
    have hmem := badFile_mem_of_stat_false env raw u hne hp hs hstat
    exact ⟨hmem, prepareFails_of_mem hmem⟩
  · exact badFile_not_mem_of_stat_true env raw u hne hp hs

/-- Witness for C4 amended on the bare local path of an existing file:
the stat check runs during Prepare and no iso_url error is recorded. -/
theorem C4_file_stat_witness :
    Effect.statCheck "/iso/a.iso" ∈ (prepare envStd rawStd).effects
  ∧ PrepError.isoUrlBadFile "/iso/a.iso" ∉ (prepare envStd rawStd).errs := by
  have h := C4_file_stat envStd rawStd
    ⟨"", "", "", "/iso/a.iso", "", "", false⟩ (by decide) (by decide) (Or.inr rfl)
  exact ⟨h.1, h.2.2 (by decide)⟩

/-- C10 counterexample: an iso_url with scheme spelled "FILE" does not
pass validation without an existence check — the URL parser
canonicalizes the scheme to lower case, Prepare stat-checks the raw
string, and (the raw string not being an existing path) validation
fails. -/
theorem C10_counterexample :
    (urlParse "FILE:///iso/a.iso").map GoURL.scheme = some "file"
  ∧ Effect.statCheck "FILE:///iso/a.iso"
      ∈ (prepare envStd { rawStd with isoUrl := "FILE:///iso/a.iso" }).effects
  ∧ PrepError.isoUrlBadFile "FILE:///iso/a.iso"
      ∈ (prepare envStd { rawStd with isoUrl := "FILE:///iso/a.iso" }).errs
  ∧ prepareFails (prepare envStd { rawStd with isoUrl := "FILE:///iso/a.iso" }) = true := by
  decide

/-- C10 amended: the scheme Prepare inspects is already canonicalized to
lower case by the URL parser, so any iso_url whose scheme lower-cases
to "file" in fact parses with scheme exactly "file" and undergoes the
existence check; the exact-match stat branch cannot be bypassed by
upper-case spellings, and the lower-casing in the supported-scheme
branch never sees a non-lowercase scheme. -/
theorem C10_scheme_canonical (env : Env) (raw : Config) (u : GoURL)
    (hne : raw.isoUrl ≠ "") (hp : urlParse raw.isoUrl = some u)
    (hs : goToLower u.scheme = "file") :
    u.scheme = "file"
  ∧ Effect.statCheck raw.isoUrl ∈ (prepare env raw).effects := by
  have hcanon := urlParse_scheme_lower raw.isoUrl u hp
  have hfile : u.scheme = "file" := hcanon.symm.trans hs
  exact ⟨hfile, statCheck_mem env raw u hne hp (Or.inl hfile)⟩

/-- Witness for C10 amended at the upper-case FILE spelling. -/
theorem C10_scheme_canonical_witness :
    (⟨"file", "", "", "/iso/a.iso", "", "", false⟩ : GoURL).scheme = "file"
  ∧ Effect.statCheck "FILE:///iso/a.iso"
      ∈ (prepare envStd { rawStd with isoUrl := "FILE:///iso/a.iso" }).effects :=
  C10_scheme_canonical envStd { rawStd with isoUrl := "FILE:///iso/a.iso" }
    ⟨"file", "", "", "/iso/a.iso", "", "", false⟩ (by decide) (by decide) (by decide)

/-- C3 counterexample: Prepare accepts the bare local path
"/iso/a.iso" and canonicalizes it to "file:///iso/a.iso", but running
Prepare again on that canonical string fails validation, refuting the
claimed idempotence (and with it that the bare path and its explicit
file URL both normalize to the same accepted string). -/
theorem C3_counterexample :
    (prepare envStd rawStd).errs = []
  ∧ (prepare envStd rawStd).config.isoUrl = "file:///iso/a.iso"
  ∧ prepareFails (prepare envStd { rawStd with isoUrl := "file:///iso/a.iso" }) = true := by
  decide

/-- C3 amended: whenever Prepare succeeds the stored iso_url is the
canonical re-serialized URL of the raw value; but re-running Prepare on
the canonical string is not idempotent for local paths: in any
environment where the path of rawStd exists while the literal string
"file:///iso/a.iso" is not itself a path, the first run stores the
explicit file URL and a second run on that string fails, because the
existence check stats the raw string. -/
theorem C3_canonical_replacement (env : Env) (raw : Config) :
    ((prepare env raw).errs = [] →
        (prepare env raw).config.isoUrl = canonicalUrl raw.isoUrl)
  ∧ (osStat env "/iso/a.iso" = true →
     osStat env "file:///iso/a.iso" = false →
        (prepare env rawStd).config.isoUrl = "file:///iso/a.iso"
      ∧ prepareFails (prepare env { rawStd with isoUrl := "file:///iso/a.iso" }) = true) := by
  constructor
  · intro h
    rw [prepare_errs_eq] at h
    have hv21 : (validateIsoUrl env (validateMD5 (applyDefaults raw)).1
        (validateMD5 (applyDefaults raw)).2).2.1 = [] := by
      split at h
      · exfalso; simp at h
      · exact h
    by_cases hne : (validateMD5 (applyDefaults raw)).1.isoUrl = ""
    · exfalso
      rw [validateIsoUrl_empty env _ _ hne] at hv21
      simp at hv21
    · cases hp : urlParse (validateMD5 (applyDefaults raw)).1.isoUrl with
      | none =>
        exfalso
        rw [validateIsoUrl_parseNone env _ _ hne hp] at hv21
        simp at hv21
      | some u0 =>
        rw [validateIsoUrl_parseSome env _ _ u0 hne hp] at hv21
        dsimp only at hv21
        have hemp : ((validateMD5 (applyDefaults raw)).2
            ++ (isoUrlCheck env (validateMD5 (applyDefaults raw)).1.isoUrl
                  (defaultFileScheme u0)).1).isEmpty = true := by
          rw [hv21]; rfl
        rw [prepare_config_eq, validateIsoUrl_parseSome env _ _ u0 hne hp]
        dsimp only
        rw [if_pos hemp]
        show urlString (defaultFileScheme u0) = canonicalUrl raw.isoUrl
        have hmu := validateMD5_fst_isoUrl_prep raw
        rw [hmu] at hp
        unfold canonicalUrl
        rw [hp]
  · intro hstat1 hstat2
    constructor
    · have h := prepare_config_isoUrl_of_ok env rawStd
        ⟨"", "", "", "/iso/a.iso", "", "", false⟩
        (by decide) (by decide) (by decide) (by decide) hstat1
      exact h.trans (by decide)
    · have hmem := badFile_mem_of_stat_false env
        { rawStd with isoUrl := "file:///iso/a.iso" }
        ⟨"file", "", "", "/iso/a.iso", "", "", false⟩
        (by decide) (by decide) (Or.inl rfl) hstat2
      exact prepareFails_of_mem hmem

/-- Witness for C3 amended in the standard environment: the successful
run stores the canonical URL, and the canonical file URL fails
re-preparation. -/
theorem C3_canonical_replacement_witness :
    (prepare envStd rawStd).config.isoUrl = canonicalUrl "/iso/a.iso"
  ∧ ((prepare envStd rawStd).config.isoUrl = "file:///iso/a.iso"
      ∧ prepareFails (prepare envStd { rawStd with isoUrl := "file:///iso/a.iso" }) = true) := by
  have h := C3_canonical_replacement envStd rawStd
  exact ⟨h.1 (by decide), h.2 (by decide) (by decide)⟩

end VirtualBox
